import Mathlib

/-!
Shallow embedding of `src/canvas-image-plotter.js`.

JavaScript numbers are modelled by `ℝ` (exact arithmetic; the spec's
"within floating-point tolerance" becomes exact equality).  `parseInt`
applied to a finite number truncates toward zero; it is modelled by
`jsTruncInt`.  JS division by zero yields `NaN`/`Infinity`; in `ℝ` it
yields the junk value `0`.  None of the claims below observes a state in
which that divergence matters, except where noted in comments.

Mutable objects become immutable structures with explicit state passing:
every method that mutates `this` and returns a value is modelled as a
function returning the new state paired with the value.
-/

/-- Model of JavaScript `parseInt` on a finite numeric argument:
truncation toward zero (parseInt stringifies and parses the integer part). -/
noncomputable def jsTruncInt (x : ℝ) : ℤ := if 0 ≤ x then ⌊x⌋ else ⌈x⌉

/-- State of `ClipAdjustment` (source lines 10-86): position of the top-left
corner, the diagonal (hypotenuse) length, and the fixed direction ratios. -/
@[ext]
structure ClipAdjustment where
  _x : ℝ
  _y : ℝ
  _hyp : ℝ
  _sin : ℝ
  _cos : ℝ

/-- The `ClipAdjustment` constructor (source lines 10-16):
`_hyp = sqrt(parseInt(width)^2 + parseInt(height)^2)`,
`_sin = parseInt(width)/_hyp`, `_cos = parseInt(height)/_hyp`. -/
noncomputable def ClipAdjustment.construct (left_ top_ width_ height_ : ℝ) :
    ClipAdjustment :=
  let hyp := Real.sqrt (((jsTruncInt width_ : ℝ)) ^ 2 + ((jsTruncInt height_ : ℝ)) ^ 2)
  { _x := left_
    _y := top_
    _hyp := hyp
    _sin := (jsTruncInt width_ : ℝ) / hyp
    _cos := (jsTruncInt height_ : ℝ) / hyp }

/-- `ClipAdjustment.zoom` (source lines 21-32): `_hyp += amount`, then the
top-left corner moves by `-(amount * .5) * sin/cos` to keep the zoom centred. -/
noncomputable def ClipAdjustment.zoom (c : ClipAdjustment) (amount_ : ℝ) :
    ClipAdjustment :=
  let hyp_diff := amount_ * (1 / 2)
  { c with
    _hyp := c._hyp + amount_
    _y := c._y - hyp_diff * c._cos
    _x := c._x - hyp_diff * c._sin }

/-- `ClipAdjustment.move` (source lines 38-41). -/
noncomputable def ClipAdjustment.move (c : ClipAdjustment) (x_offset_ y_offset_ : ℝ) :
    ClipAdjustment :=
  { c with _x := c._x + x_offset_, _y := c._y + y_offset_ }

/-- `ClipAdjustment.getX` (source lines 42-44). -/
noncomputable def ClipAdjustment.getX (c : ClipAdjustment) : ℝ := c._x

/-- `ClipAdjustment.getY` (source lines 45-47). -/
noncomputable def ClipAdjustment.getY (c : ClipAdjustment) : ℝ := c._y

/-- `ClipAdjustment.getWidth` (source lines 48-50): `_sin * _hyp`. -/
noncomputable def ClipAdjustment.getWidth (c : ClipAdjustment) : ℝ := c._sin * c._hyp

/-- `ClipAdjustment.getHeight` (source lines 51-53): `_cos * _hyp`. -/
noncomputable def ClipAdjustment.getHeight (c : ClipAdjustment) : ℝ := c._cos * c._hyp

/-- `ClipAdjustment.calcHypDifferenceByWidth` (source lines 58-60). -/
noncomputable def ClipAdjustment.calcHypDifferenceByWidth
    (c : ClipAdjustment) (new_width_ : ℝ) : ℝ :=
  c._hyp - new_width_ / c._sin

/-- `ClipAdjustment.calcHypDifferenceByHeight` (source lines 65-67). -/
noncomputable def ClipAdjustment.calcHypDifferenceByHeight
    (c : ClipAdjustment) (new_height_ : ℝ) : ℝ :=
  c._hyp - new_height_ / c._cos

/-- `Clip` (source lines 94-114): an immutable rectangle value.  The ratio
and orientation queries are not needed by any claim and are omitted. -/
@[ext]
structure Clip where
  left : ℝ
  top : ℝ
  width : ℝ
  height : ℝ

/-- `ClipAdjustment.getState` (source lines 70-72). -/
noncomputable def ClipAdjustment.getState (c : ClipAdjustment) : Clip :=
  Clip.mk c.getX c.getY c.getWidth c.getHeight

/-- `ImagePlot` (source lines 116-119): the result pair returned by every
plotter operation. -/
@[ext]
structure ImagePlot where
  image : Clip
  canvas : Clip

/-- A sequence of `zoom` calls applied in order (used to state the
aspect-ratio invariant over "any sequence of zoom calls"). -/
noncomputable def ClipAdjustment.zoomSeq (c : ClipAdjustment) (amounts : List ℝ) :
    ClipAdjustment :=
  amounts.foldl ClipAdjustment.zoom c

/-- State of `ImagePlotter` (source lines 130-145). -/
@[ext]
structure ImagePlotter where
  zoom_multiplier : ℝ
  _state : ClipAdjustment
  _image : Clip
  _canvas : Clip

/-- The key `"contain"` compared against by `init`'s switch. -/
def containKey : String := "contain"

/-- The default orientation string used by the constructor. -/
def coverKey : String := "cover"

/-- JavaScript `a || b` for `a` a possibly-absent string: falls back to the
default when `a` is absent or the empty string (the falsy string). -/
noncomputable def jsOrString (x : Option String) (dflt : String) : String :=
  match x with
  | none => dflt
  | some v => if v = "" then dflt else v

/-- JavaScript `a || b` for `a` a possibly-absent number: falls back to the
default when `a` is absent or `0` (the falsy finite numbers are `0` and `-0`;
`NaN` is only produced from a non-numeric argument, modelled by `none`). -/
noncomputable def jsOrNum (x : Option ℝ) (dflt : ℝ) : ℝ :=
  match x with
  | none => dflt
  | some v => if v = 0 then dflt else v

/-- `parseInt(x) || 0` (source line 231): an absent / non-numeric argument
gives `NaN`, which `|| 0` turns into `0`; a numeric argument is truncated
(and `-0` becomes `0`, the same real number). -/
noncomputable def jsParseIntOrZero (x : Option ℝ) : ℝ :=
  match x with
  | none => 0
  | some d => (jsTruncInt d : ℝ)

/-- `ImagePlotter.prototype.centerFullSize` (source lines 167-176): moves the
adjustment by minus half the image/canvas size difference and returns the
plot pair.  Note the move is relative to the current position. -/
noncomputable def ImagePlotter.centerFullSize (p : ImagePlotter) :
    ImagePlotter × ImagePlot :=
  let image := Clip.mk 0 0 p._image.width p._image.height
  let width_diff := p._image.width - p._canvas.width
  let height_diff := p._image.height - p._canvas.height
  let st := p._state.move (-width_diff * (1 / 2)) (-height_diff * (1 / 2))
  ({ p with _state := st }, { image := image, canvas := st.getState })

/-- `ImagePlotter.prototype.cover` (source lines 181-196).  The plot pair
returned by the inner `centerFullSize` call is discarded (it leaks into an
implicit global in the source); only its state change matters. -/
noncomputable def ImagePlotter.cover (p : ImagePlotter) :
    ImagePlotter × ImagePlot :=
  let p1 := (p.centerFullSize).1
  let image := Clip.mk 0 0 p1._image.width p1._image.height
  let st :=
    if min p1._image.width p1._image.height = p1._image.width then
      p1._state.zoom (-(p1._state.calcHypDifferenceByWidth p1._canvas.width))
    else
      p1._state.zoom (-(p1._state.calcHypDifferenceByHeight p1._canvas.height))
  ({ p1 with _state := st }, { image := image, canvas := st.getState })

/-- `ImagePlotter.prototype.contain` (source lines 201-216). -/
noncomputable def ImagePlotter.contain (p : ImagePlotter) :
    ImagePlotter × ImagePlot :=
  let p1 := (p.centerFullSize).1
  let image := Clip.mk 0 0 p1._image.width p1._image.height
  let st :=
    if max p1._image.width p1._image.height = p1._image.width then
      p1._state.zoom (-(p1._state.calcHypDifferenceByWidth p1._canvas.width))
    else
      p1._state.zoom (-(p1._state.calcHypDifferenceByHeight p1._canvas.height))
  ({ p1 with _state := st }, { image := image, canvas := st.getState })

/-- `ImagePlotter.prototype.init` (source lines 150-164): sets the image and
canvas sizes, replaces the adjustment wholesale, then dispatches on the
orientation string (`'contain'` goes to `contain`, everything else to
`cover`). -/
noncomputable def ImagePlotter.init (p : ImagePlotter)
    (image_width_ image_height_ canvas_width_ canvas_height_ : ℝ)
    (orientation : String) : ImagePlotter × ImagePlot :=
  let p1 : ImagePlotter :=
    { p with
      _image := { p._image with width := image_width_, height := image_height_ }
      _canvas := { p._canvas with width := canvas_width_, height := canvas_height_ }
      _state := ClipAdjustment.construct 0 0 image_width_ image_height_ }
  if orientation = containKey then p1.contain else p1.cover

/-- `ImagePlotter.prototype.move` (source lines 218-224). -/
noncomputable def ImagePlotter.move (p : ImagePlotter) (x_move_ y_move_ : ℝ) :
    ImagePlotter × ImagePlot :=
  let image := Clip.mk 0 0 p._image.width p._image.height
  let st := p._state.move x_move_ y_move_
  ({ p with _state := st }, { image := image, canvas := st.getState })

/-- The options object accepted by `ImagePlotter.prototype.zoom`;
absent fields are `none`. -/
structure ZoomOpts where
  zoom_depth : Option ℝ
  zoom_multiplier : Option ℝ

/-- `ImagePlotter.prototype.zoom` (source lines 229-240):
`mult = opts.zoom_multiplier || this.zoom_multiplier`,
`depth = parseInt(opts.zoom_depth) || 0`, then `adjustment.zoom(mult*depth)`. -/
noncomputable def ImagePlotter.zoom (p : ImagePlotter) (opts_ : ZoomOpts) :
    ImagePlotter × ImagePlot :=
  let mult := jsOrNum opts_.zoom_multiplier p.zoom_multiplier
  let depth := jsParseIntOrZero opts_.zoom_depth
  let image := Clip.mk 0 0 p._image.width p._image.height
  let st := p._state.zoom (mult * depth)
  ({ p with _state := st }, { image := image, canvas := st.getState })

/-- The `ImagePlotter` constructor (source lines 130-145): fields are set to
their defaults, then `init` runs with `opts.orientation || "cover"`.  The
JS constructor discards the plot that `init` returns; it is kept here so
that "the returned PlotResult after construction" can be stated. -/
noncomputable def ImagePlotter.construct
    (image_width_ image_height_ canvas_width_ canvas_height_ : ℝ)
    (orientation : Option String) : ImagePlotter × ImagePlot :=
  let p0 : ImagePlotter :=
    { zoom_multiplier := 1
      _state := ClipAdjustment.construct 0 0 0 0
      _image := Clip.mk 0 0 0 0
      _canvas := Clip.mk 0 0 0 0 }
  p0.init image_width_ image_height_ canvas_width_ canvas_height_
    (jsOrString orientation coverKey)

/-! ## Basic evaluation lemmas -/

theorem jsTruncInt_intCast (m : ℤ) : jsTruncInt (m : ℝ) = m := by
  unfold jsTruncInt
  split
  · exact Int.floor_intCast m
  · exact Int.ceil_intCast m

theorem jsTruncInt_natCast (n : ℕ) : jsTruncInt (n : ℝ) = (n : ℤ) := by
  have := jsTruncInt_intCast (n : ℤ)
  rwa [Int.cast_natCast] at this

theorem jsTruncInt_three : jsTruncInt (3 : ℝ) = 3 := by
  have := jsTruncInt_intCast 3
  rwa [show ((3 : ℤ) : ℝ) = 3 by norm_num] at this

theorem jsTruncInt_four : jsTruncInt (4 : ℝ) = 4 := by
  have := jsTruncInt_intCast 4
  rwa [show ((4 : ℤ) : ℝ) = 4 by norm_num] at this

theorem jsTruncInt_one : jsTruncInt (1 : ℝ) = 1 := by
  have := jsTruncInt_intCast 1
  rwa [show ((1 : ℤ) : ℝ) = 1 by norm_num] at this

/-- The adjustment built for a 3-by-4 image: a 3-4-5 triangle, so every
field is rational. -/
theorem construct34 :
    ClipAdjustment.construct 0 0 3 4 = ⟨0, 0, 5, 3 / 5, 4 / 5⟩ := by
  unfold ClipAdjustment.construct
  rw [jsTruncInt_three, jsTruncInt_four]
  have h25 : Real.sqrt (((3 : ℤ) : ℝ) ^ 2 + ((4 : ℤ) : ℝ) ^ 2) = 5 := by
    rw [show ((3 : ℤ) : ℝ) ^ 2 + ((4 : ℤ) : ℝ) ^ 2 = 5 ^ 2 by norm_num]
    exact Real.sqrt_sq (by norm_num)
  rw [h25]
  norm_num

/-! ## Claim theorems -/

/-- The centre-preservation property of `zoom`, at the stated inputs. -/
noncomputable def ZoomKeepsCenter (left_ top_ width_ height_ a : ℝ) : Prop :=
  let c := ClipAdjustment.construct left_ top_ width_ height_
  let c2 := c.zoom a
  c2._x + c2.getWidth / 2 = c._x + c.getWidth / 2 ∧
  c2._y + c2.getHeight / 2 = c._y + c.getHeight / 2

/-- C3: for every ClipAdjustment constructed from a width and height that are
not both zero, and every zoom amount `a`, the centre point
`(x + width()/2, y + height()/2)` is unchanged by `zoom(a)` in exact
arithmetic.  (The proof is a ring identity in the stored `sin`, `cos`,
`hyp` values and does not even need the nondegeneracy hypothesis.) -/
theorem C3_zoom_keeps_center (left_ top_ width_ height_ a : ℝ)
    (hnz : ¬(width_ = 0 ∧ height_ = 0)) :
    ZoomKeepsCenter left_ top_ width_ height_ a := by
  unfold ZoomKeepsCenter ClipAdjustment.construct ClipAdjustment.zoom
    ClipAdjustment.getWidth ClipAdjustment.getHeight
  constructor <;> ring

/-- Witness for C3 at `left = 0, top = 0, width = 3, height = 4, a = 2`. -/
theorem C3_zoom_keeps_center_witness :
    (¬((3 : ℝ) = 0 ∧ (4 : ℝ) = 0)) ∧ ZoomKeepsCenter 0 0 3 4 2 :=
  ⟨by norm_num, C3_zoom_keeps_center 0 0 3 4 2 (by norm_num)⟩

/-- C7: for every ClipAdjustment state and amounts `a`, `b`, `zoom a` then
`zoom b` yields the same width, height and diagonal as the single call
`zoom (a+b)`. -/
theorem C7_zoom_additive (c : ClipAdjustment) (a b : ℝ) :
    ((c.zoom a).zoom b).getWidth = (c.zoom (a + b)).getWidth ∧
    ((c.zoom a).zoom b).getHeight = (c.zoom (a + b)).getHeight ∧
    ((c.zoom a).zoom b)._hyp = (c.zoom (a + b))._hyp := by
  unfold ClipAdjustment.zoom ClipAdjustment.getWidth ClipAdjustment.getHeight
  refine ⟨by ring, by ring, by ring⟩

/-- C8: for every plotter state and offsets `dx`, `dy`, `move dx dy` shifts
the returned viewportRect's left/top by exactly `dx`/`dy`, keeps its width
and height equal to the pre-call snapshot, and keeps the paired imageRect
(and the stored image rectangle) unchanged. -/
theorem C8_move_pure_translation (p : ImagePlotter) (dx dy : ℝ) :
    (p.move dx dy).2.canvas.left = p._state.getState.left + dx ∧
    (p.move dx dy).2.canvas.top = p._state.getState.top + dy ∧
    (p.move dx dy).2.canvas.width = p._state.getState.width ∧
    (p.move dx dy).2.canvas.height = p._state.getState.height ∧
    (p.move dx dy).2.image = Clip.mk 0 0 p._image.width p._image.height ∧
    (p.move dx dy).1._image = p._image := by
  unfold ImagePlotter.move ClipAdjustment.move ClipAdjustment.getState
    ClipAdjustment.getX ClipAdjustment.getY ClipAdjustment.getWidth
    ClipAdjustment.getHeight
  exact ⟨rfl, rfl, rfl, rfl, rfl, rfl⟩

/-! ## Zoom sequences preserve the stored ratios -/

theorem zoom_sin (c : ClipAdjustment) (a : ℝ) : (c.zoom a)._sin = c._sin := rfl

theorem zoom_cos (c : ClipAdjustment) (a : ℝ) : (c.zoom a)._cos = c._cos := rfl

theorem zoomSeq_sin (zs : List ℝ) :
    ∀ c : ClipAdjustment, (c.zoomSeq zs)._sin = c._sin := by
  induction zs with
  | nil => intro c; rfl
  | cons a as ih =>
      intro c
      show ((c.zoom a).zoomSeq as)._sin = c._sin
      rw [ih (c.zoom a), zoom_sin]

theorem zoomSeq_cos (zs : List ℝ) :
    ∀ c : ClipAdjustment, (c.zoomSeq zs)._cos = c._cos := by
  induction zs with
  | nil => intro c; rfl
  | cons a as ih =>
      intro c
      show ((c.zoom a).zoomSeq as)._cos = c._cos
      rw [ih (c.zoom a), zoom_cos]

/-- The aspect-ratio property exactly as the claim states it, at real
construction inputs `w`, `h`: after any sequence of zoom calls the stored
ratios are unchanged and `width()/height()` equals `w / h` itself whenever
both are nonzero. -/
noncomputable def AspectInvariantReal (left_ top_ w h : ℝ) (zs : List ℝ) : Prop :=
  let c0 := ClipAdjustment.construct left_ top_ w h
  let c := c0.zoomSeq zs
  c._sin = c0._sin ∧ c._cos = c0._cos ∧
  (c.getWidth ≠ 0 → c.getHeight ≠ 0 → c.getWidth / c.getHeight = w / h)

/-- The amended aspect-ratio property: the preserved ratio is the ratio of
the `parseInt`-truncated construction inputs. -/
noncomputable def AspectInvariantTrunc (left_ top_ w h : ℝ) (zs : List ℝ) : Prop :=
  let c0 := ClipAdjustment.construct left_ top_ w h
  let c := c0.zoomSeq zs
  c._sin = c0._sin ∧ c._cos = c0._cos ∧
  (c.getWidth ≠ 0 → c.getHeight ≠ 0 →
   c.getWidth / c.getHeight = (jsTruncInt w : ℝ) / (jsTruncInt h : ℝ))

/-- C4 counterexample: at width `5/2 > 0`, height `1 > 0` and the empty zoom
sequence, the `parseInt` truncation in the constructor makes
`width()/height() = 2 ≠ (5/2)/1` with both sides of the quotient nonzero,
refuting the claim as stated over arbitrary positive dimensions. -/
theorem C4_fractional_width_counterexample :
    (0 : ℝ) < 5 / 2 ∧ (0 : ℝ) < 1 ∧ ¬AspectInvariantReal 0 0 (5 / 2) 1 [] := by
  refine ⟨by norm_num, by norm_num, ?_⟩
  have h52 : jsTruncInt (5 / 2 : ℝ) = 2 := by
    unfold jsTruncInt
    rw [if_pos (by norm_num : (0 : ℝ) ≤ 5 / 2), Int.floor_eq_iff]
    constructor <;> norm_num
  have hstate : ClipAdjustment.construct 0 0 (5 / 2) 1 =
      ⟨0, 0, Real.sqrt 5, 2 / Real.sqrt 5, 1 / Real.sqrt 5⟩ := by
    unfold ClipAdjustment.construct
    rw [h52, jsTruncInt_one]
    norm_num [ClipAdjustment.mk.injEq]
  intro hinv
  simp only [AspectInvariantReal, ClipAdjustment.zoomSeq, List.foldl_nil, hstate] at hinv
  obtain ⟨-, -, hratio⟩ := hinv
  have hS : Real.sqrt 5 ≠ 0 := ne_of_gt (Real.sqrt_pos.mpr (by norm_num))
  simp only [ClipAdjustment.getWidth, ClipAdjustment.getHeight] at hratio
  rw [div_mul_cancel₀ _ hS, div_mul_cancel₀ _ hS] at hratio
  have h2 := hratio (by norm_num) (by norm_num)
  norm_num at h2

/-- C4 amended: for every ClipAdjustment constructed with width `w > 0` and
height `h > 0` and any sequence of zoom calls, the stored `sin`/`cos` ratios
keep their construction-time values, and `width()/height()` equals
`trunc(w)/trunc(h)` — the ratio of the `parseInt`-truncated construction
inputs — whenever both are nonzero: zoom changes only the diagonal and
position, never the aspect ratio, and the ratio it preserves is the
truncated one (equal to `w/h` exactly when the inputs are integers). -/
theorem C4_aspect_ratio_trunc (left_ top_ w h : ℝ) (hw : 0 < w) (hh : 0 < h)
    (zs : List ℝ) :
    AspectInvariantTrunc left_ top_ w h zs := by
  unfold AspectInvariantTrunc
  refine ⟨zoomSeq_sin zs _, zoomSeq_cos zs _, ?_⟩
  intro hW hH
  set c0 := ClipAdjustment.construct left_ top_ w h with hc0
  set c := c0.zoomSeq zs with hc
  have hcsin : c._sin = c0._sin := zoomSeq_sin zs c0
  have hccos : c._cos = c0._cos := zoomSeq_cos zs c0
  have hsin_eq : c0._sin =
      (jsTruncInt w : ℝ) /
        Real.sqrt ((jsTruncInt w : ℝ) ^ 2 + (jsTruncInt h : ℝ) ^ 2) := by
    simp [hc0, ClipAdjustment.construct]
  have hcos_eq : c0._cos =
      (jsTruncInt h : ℝ) /
        Real.sqrt ((jsTruncInt w : ℝ) ^ 2 + (jsTruncInt h : ℝ) ^ 2) := by
    simp [hc0, ClipAdjustment.construct]
  have hhyp : c._hyp ≠ 0 := by
    intro h0
    exact hW (by simp [ClipAdjustment.getWidth, h0])
  have hsin_ne : c0._sin ≠ 0 := by
    intro h0
    exact hW (by simp [ClipAdjustment.getWidth, hcsin, h0])
  have hcos_ne : c0._cos ≠ 0 := by
    intro h0
    exact hH (by simp [ClipAdjustment.getHeight, hccos, h0])
  have hS_ne :
      Real.sqrt ((jsTruncInt w : ℝ) ^ 2 + (jsTruncInt h : ℝ) ^ 2) ≠ 0 := by
    intro h0
    exact hsin_ne (by rw [hsin_eq, h0, div_zero])
  have hth_ne : (jsTruncInt h : ℝ) ≠ 0 := by
    intro h0
    exact hcos_ne (by rw [hcos_eq, h0, zero_div])
  rw [ClipAdjustment.getWidth, ClipAdjustment.getHeight, hcsin, hccos,
    mul_div_mul_right _ _ hhyp, hsin_eq, hcos_eq]
  field_simp

/-- Witness for the amended C4 at
`left = 0, top = 0, w = 3, h = 4, zooms = [1, -2]`. -/
theorem C4_aspect_ratio_trunc_witness :
    (0 : ℝ) < 3 ∧ (0 : ℝ) < 4 ∧ AspectInvariantTrunc 0 0 3 4 [1, -2] :=
  ⟨by norm_num, by norm_num,
    C4_aspect_ratio_trunc 0 0 3 4 (by norm_num) (by norm_num) [1, -2]⟩

/-! ## Sample plotter states (used by witnesses and counterexamples) -/

/-- A sample adjustment: the one a 3-by-4 image produces (3-4-5 triangle). -/
noncomputable def sampleAdj : ClipAdjustment := ⟨0, 0, 5, 3 / 5, 4 / 5⟩

/-- A sample plotter state with a 3-by-4 image and a 1-by-2 canvas. -/
noncomputable def samplePlotter : ImagePlotter :=
  ⟨1, sampleAdj, Clip.mk 0 0 3 4, Clip.mk 0 0 1 2⟩

/-- A sample plotter state whose image is square (7-by-7). -/
noncomputable def squarePlotter : ImagePlotter :=
  ⟨1, sampleAdj, Clip.mk 0 0 7 7, Clip.mk 0 0 2 3⟩

/-- C9: for every plotter whose image width equals its image height, `cover`
and `contain` take the same (width) branch, so they return equal results and
leave the plotter in equal states. -/
theorem C9_square_cover_eq_contain (p : ImagePlotter)
    (hsq : p._image.width = p._image.height) :
    p.cover = p.contain := by
  have hmin : min p._image.width p._image.height = p._image.width := by
    rw [hsq]; exact min_self _
  have hmax : max p._image.width p._image.height = p._image.width := by
    rw [hsq]; exact max_self _
  simp only [ImagePlotter.cover, ImagePlotter.contain, ImagePlotter.centerFullSize]
  rw [hmin, hmax]

/-- Witness for C9 at the square-image sample plotter. -/
theorem C9_square_cover_eq_contain_witness :
    squarePlotter._image.width = squarePlotter._image.height ∧
    squarePlotter.cover = squarePlotter.contain :=
  ⟨rfl, C9_square_cover_eq_contain squarePlotter rfl⟩

/-- Zooming by `0` is the identity on the adjustment state. -/
theorem zoom_zero (c : ClipAdjustment) : c.zoom 0 = c := by
  unfold ClipAdjustment.zoom
  ext <;> simp

/-- C10: for every plotter state and options whose zoom depth coerces to `0`
(absent or non-numeric `zoom_depth`), `zoom` leaves the whole plotter —
in particular the adjustment's position and diagonal — unchanged, and the
returned viewportRect equals the pre-call snapshot of the state. -/
theorem C10_zero_depth_noop (p : ImagePlotter) (opts_ : ZoomOpts)
    (hd : jsParseIntOrZero opts_.zoom_depth = 0) :
    (p.zoom opts_).1 = p ∧ (p.zoom opts_).2.canvas = p._state.getState := by
  simp only [ImagePlotter.zoom]
  rw [hd, mul_zero, zoom_zero]
  exact ⟨rfl, rfl⟩

/-- Witness for C10: options with both fields absent, at the sample plotter. -/
theorem C10_zero_depth_noop_witness :
    jsParseIntOrZero (ZoomOpts.mk none none).zoom_depth = 0 ∧
    ((samplePlotter.zoom (ZoomOpts.mk none none)).1 = samplePlotter ∧
     (samplePlotter.zoom (ZoomOpts.mk none none)).2.canvas =
       samplePlotter._state.getState) :=
  ⟨rfl, C10_zero_depth_noop samplePlotter (ZoomOpts.mk none none) rfl⟩

/-- C6 counterexample: supplying a per-call `zoom_multiplier` of `0` does not
make `zoom` apply `adjustment.zoom(0 * depth)`; the `||` fallback replaces
the supplied `0` by the plotter's field (here `1`), so the diagonal grows by
`1` instead of staying put. -/
theorem C6_zero_multiplier_counterexample :
    (samplePlotter.zoom (ZoomOpts.mk (some 1) (some 0))).1._state ≠
      samplePlotter._state.zoom (0 * (jsTruncInt 1 : ℝ)) := by
  intro hEq
  have h := congrArg ClipAdjustment._hyp hEq
  simp [ImagePlotter.zoom, ClipAdjustment.zoom, jsOrNum, jsParseIntOrZero,
    jsTruncInt_one, samplePlotter, sampleAdj] at h

/-- C6 amended: `zoom` applies `adjustment.zoom(m * d)` where `d` is the
integer coercion of `zoom_depth` (`0` when absent) and `m` is the per-call
`zoom_multiplier` only when it is supplied and nonzero; when it is absent
*or equal to the falsy value `0`*, `m` falls back to the plotter's
`zoom_multiplier` field. -/
theorem C6_zoom_option_handling (p : ImagePlotter) (m d : ℝ) :
    ((p.zoom (ZoomOpts.mk (some d) (some m))).1._state =
       p._state.zoom ((if m = 0 then p.zoom_multiplier else m) * (jsTruncInt d : ℝ))) ∧
    ((p.zoom (ZoomOpts.mk (some d) none)).1._state =
       p._state.zoom (p.zoom_multiplier * (jsTruncInt d : ℝ))) ∧
    ((p.zoom (ZoomOpts.mk none (some m))).1._state =
       p._state.zoom ((if m = 0 then p.zoom_multiplier else m) * 0)) :=
  ⟨rfl, rfl, rfl⟩

/-! ## Evaluating the constructor and the fit operations on concrete inputs -/

/-- Constructing with no orientation option dispatches to `cover` on the
freshly initialised state. -/
theorem construct_cover_eval (iw ih cw ch : ℝ) :
    ImagePlotter.construct iw ih cw ch none =
      ImagePlotter.cover
        ⟨1, ClipAdjustment.construct 0 0 iw ih, Clip.mk 0 0 iw ih, Clip.mk 0 0 cw ch⟩ := by
  simp only [ImagePlotter.construct, ImagePlotter.init, jsOrString]
  rw [if_neg (by decide : ¬(coverKey = containKey))]

/-- Constructing with orientation `"contain"` dispatches to `contain` on the
freshly initialised state. -/
theorem construct_contain_eval (iw ih cw ch : ℝ) :
    ImagePlotter.construct iw ih cw ch (some containKey) =
      ImagePlotter.contain
        ⟨1, ClipAdjustment.construct 0 0 iw ih, Clip.mk 0 0 iw ih, Clip.mk 0 0 cw ch⟩ := by
  simp only [ImagePlotter.construct, ImagePlotter.init, jsOrString]
  rw [if_neg (by decide : ¬(containKey = "")), if_pos rfl]

/-- First `cover` on a 3-by-4 image over a 2-by-2 canvas. -/
theorem cover_eval_3422 :
    ImagePlotter.cover ⟨1, ⟨0, 0, 5, 3 / 5, 4 / 5⟩, Clip.mk 0 0 3 4, Clip.mk 0 0 2 2⟩ =
      (⟨1, ⟨0, -(1 / 3), 10 / 3, 3 / 5, 4 / 5⟩, Clip.mk 0 0 3 4, Clip.mk 0 0 2 2⟩,
       ⟨Clip.mk 0 0 3 4, Clip.mk 0 (-(1 / 3)) 2 (8 / 3)⟩) := by
  simp only [ImagePlotter.cover, ImagePlotter.centerFullSize, ClipAdjustment.move,
    ClipAdjustment.calcHypDifferenceByWidth, ClipAdjustment.calcHypDifferenceByHeight,
    ClipAdjustment.zoom, ClipAdjustment.getState, ClipAdjustment.getX,
    ClipAdjustment.getY, ClipAdjustment.getWidth, ClipAdjustment.getHeight]
  rw [if_pos (show min (3 : ℝ) 4 = 3 by norm_num [min_def])]
  norm_num [Prod.mk.injEq, ImagePlotter.mk.injEq, ClipAdjustment.mk.injEq,
    ImagePlot.mk.injEq, Clip.mk.injEq]

/-- Second `cover` from the state the first one left behind: the position
drifts by another half size difference. -/
theorem cover_eval_3422_second :
    ImagePlotter.cover
        ⟨1, ⟨0, -(1 / 3), 10 / 3, 3 / 5, 4 / 5⟩, Clip.mk 0 0 3 4, Clip.mk 0 0 2 2⟩ =
      (⟨1, ⟨-(1 / 2), -(4 / 3), 10 / 3, 3 / 5, 4 / 5⟩, Clip.mk 0 0 3 4, Clip.mk 0 0 2 2⟩,
       ⟨Clip.mk 0 0 3 4, Clip.mk (-(1 / 2)) (-(4 / 3)) 2 (8 / 3)⟩) := by
  simp only [ImagePlotter.cover, ImagePlotter.centerFullSize, ClipAdjustment.move,
    ClipAdjustment.calcHypDifferenceByWidth, ClipAdjustment.calcHypDifferenceByHeight,
    ClipAdjustment.zoom, ClipAdjustment.getState, ClipAdjustment.getX,
    ClipAdjustment.getY, ClipAdjustment.getWidth, ClipAdjustment.getHeight]
  rw [if_pos (show min (3 : ℝ) 4 = 3 by norm_num [min_def])]
  norm_num [Prod.mk.injEq, ImagePlotter.mk.injEq, ClipAdjustment.mk.injEq,
    ImagePlot.mk.injEq, Clip.mk.injEq]

/-- C1 fails on the code: for the 3-by-4 image over a 1-by-2 viewport with
orientation cover, the returned viewportRect has height `4/3 < 2 = vh` —
`cover` chooses its branch from the image dimensions alone and never
compares against the viewport aspect, so the viewport is not covered. -/
theorem C1_cover_coverage_fails :
    (ImagePlotter.construct 3 4 1 2 none).2.canvas.height = 4 / 3 ∧
    ¬((2 : ℝ) ≤ (ImagePlotter.construct 3 4 1 2 none).2.canvas.height) := by
  have h := construct_cover_eval 3 4 1 2
  rw [construct34] at h
  have hc : (ImagePlotter.construct 3 4 1 2 none).2.canvas.height = 4 / 3 := by
    rw [h]
    simp only [ImagePlotter.cover, ImagePlotter.centerFullSize, ClipAdjustment.move,
      ClipAdjustment.calcHypDifferenceByWidth, ClipAdjustment.calcHypDifferenceByHeight,
      ClipAdjustment.zoom, ClipAdjustment.getState, ClipAdjustment.getX,
      ClipAdjustment.getY, ClipAdjustment.getWidth, ClipAdjustment.getHeight]
    rw [if_pos (show min (3 : ℝ) 4 = 3 by norm_num [min_def])]
    norm_num
  rw [hc]
  norm_num

/-- C2 fails on the code: for the 3-by-4 image over a 1-by-4 viewport with
orientation contain, the returned viewportRect has width `3 > 1 = vw` —
`contain` fits only the larger image side and ignores the other viewport
axis, so the image does not fit inside the viewport. -/
theorem C2_contain_containment_fails :
    (ImagePlotter.construct 3 4 1 4 (some containKey)).2.canvas.width = 3 ∧
    ¬((ImagePlotter.construct 3 4 1 4 (some containKey)).2.canvas.width ≤ 1) := by
  have h := construct_contain_eval 3 4 1 4
  rw [construct34] at h
  have hc : (ImagePlotter.construct 3 4 1 4 (some containKey)).2.canvas.width = 3 := by
    rw [h]
    simp only [ImagePlotter.contain, ImagePlotter.centerFullSize, ClipAdjustment.move,
      ClipAdjustment.calcHypDifferenceByWidth, ClipAdjustment.calcHypDifferenceByHeight,
      ClipAdjustment.zoom, ClipAdjustment.getState, ClipAdjustment.getX,
      ClipAdjustment.getY, ClipAdjustment.getWidth, ClipAdjustment.getHeight]
    rw [if_neg (show ¬(max (3 : ℝ) 4 = 3) by norm_num [max_def])]
    norm_num
  rw [hc]
  norm_num

/-- C5 fails on the code: for the 3-by-4 image over a 2-by-2 viewport,
the first `cover` returns left `0` but an immediately repeated `cover`
returns left `-1/2`: `centerFullSize` applies a *relative* move on every
call, so `cover` is cumulative in position and not idempotent. -/
theorem C5_cover_not_idempotent :
    (ImagePlotter.construct 3 4 2 2 none).2.canvas.left = 0 ∧
    ((ImagePlotter.construct 3 4 2 2 none).1.cover).2.canvas.left = -(1 / 2) ∧
    (ImagePlotter.construct 3 4 2 2 none).2.canvas ≠
      ((ImagePlotter.construct 3 4 2 2 none).1.cover).2.canvas := by
  have h := construct_cover_eval 3 4 2 2
  rw [construct34] at h
  have h1 : (ImagePlotter.construct 3 4 2 2 none).2.canvas =
      Clip.mk 0 (-(1 / 3)) 2 (8 / 3) := by
    rw [h, cover_eval_3422]
  have h2 : (ImagePlotter.construct 3 4 2 2 none).1 =
      (⟨1, ⟨0, -(1 / 3), 10 / 3, 3 / 5, 4 / 5⟩, Clip.mk 0 0 3 4,
        Clip.mk 0 0 2 2⟩ : ImagePlotter) := by
    rw [h, cover_eval_3422]
  rw [h1, h2, cover_eval_3422_second]
  refine ⟨rfl, rfl, ?_⟩
  intro hc
  have hl := congrArg Clip.left hc
  norm_num at hl
